import Mathlib

/-!
Verification of the player-stats aggregation and caching engine of the
BlitzGremlin repository (src/yahoo_api.py, src/models.py, src/utils.py,
src/routes.py, src/config.py) against its natural-language specification.

The upstream XML responses are decoded by `xmltodict.parse` into a JSON-like
value: a mapping with string keys, an ordered sequence, a string, or `None`.
`Tree` is the shallow embedding of that value space.  Python-level behaviours
that the source relies on (truthiness, `dict.get`, `x or y`, `str()`,
substring tests, `AttributeError`/`TypeError` on bad receivers) are modelled
explicitly so every translated function follows its Python source line by
line.  Every effectful function additionally returns the list of upstream
URLs it actually fetched, in order, so claims about "issues no upstream
call" are statable.
-/

namespace BlitzGremlin

/-- A decoded upstream response node (output shape of `xmltodict.parse`):
a mapping, an ordered sequence, a string scalar, or Python `None`. -/
inductive Tree where
  | obj (kvs : List (String × Tree))
  | arr (elems : List Tree)
  | str (s : String)
  | null

mutual

/-- Python `==` on decoded values (deep structural equality). -/
def Tree.beq : Tree → Tree → Bool
  | .obj a, .obj b => Tree.beqKVs a b
  | .arr a, .arr b => Tree.beqList a b
  | .str a, .str b => a == b
  | .null, .null => true
  | _, _ => false

/-- Pairwise equality of mapping entries (Python dicts from `xmltodict`
preserve insertion order and have unique keys, so ordered comparison
agrees with dict equality on the values this program handles). -/
def Tree.beqKVs : List (String × Tree) → List (String × Tree) → Bool
  | [], [] => true
  | (k, v) :: xs, (k2, v2) :: ys => k == k2 && Tree.beq v v2 && Tree.beqKVs xs ys
  | _, _ => false

/-- Pairwise equality of sequence elements. -/
def Tree.beqList : List Tree → List Tree → Bool
  | [], [] => true
  | x :: xs, y :: ys => Tree.beq x y && Tree.beqList xs ys
  | _, _ => false

end

/-- Python truthiness of a decoded value: empty mapping, empty sequence,
empty string and `None` are falsy, everything else is truthy. -/
def Tree.truthy : Tree → Bool
  | .obj kvs => !kvs.isEmpty
  | .arr l => !l.isEmpty
  | .str s => !s.isEmpty
  | .null => false

/-- First binding for a key in a mapping's entry list (keys produced by
`xmltodict` are unique, and our insertion helpers keep them unique). -/
def assocFind (kvs : List (String × Tree)) (k : String) : Option Tree :=
  match kvs.find? (fun kv => kv.1 == k) with
  | some kv => some kv.2
  | none => none

/-- The Python exceptions the modelled code can raise. -/
inductive PyErr where
  | httpError (status : Nat) (body : Option Tree)
  | runtimeError (payload : Tree)
  | exc

/-- Python `x.get(k)`: on a dict, the stored value or `None`;
on any non-dict receiver (including `None`) raises `AttributeError`. -/
def Tree.pyGet : Tree → String → Except PyErr Tree
  | .obj kvs, k => .ok ((assocFind kvs k).getD .null)
  | _, _ => .error .exc

/-- Python `x.get(k, d)` with an explicit default. -/
def Tree.pyGetD : Tree → String → Tree → Except PyErr Tree
  | .obj kvs, k, d => .ok ((assocFind kvs k).getD d)
  | _, _, _ => .error .exc

/-- Python `a or b` (value-level short-circuit on truthiness). -/
def pyOr (a b : Tree) : Tree :=
  if a.truthy then a else b

mutual

/-- Python `str()` of a decoded value, used for `str(s.get("stat_id"))`.
Strings map to themselves and `None` to `"None"`; for mappings and
sequences (never produced as `stat_id` nodes by the upstream schema) we
render a simple bracketed form in place of Python's `repr`-based text. -/
def Tree.pyStr : Tree → String
  | .str s => s
  | .null => "None"
  | .arr l => "[" ++ Tree.pyStrList l ++ "]"
  | .obj kvs => "\x7b" ++ Tree.pyStrKVs kvs ++ "\x7d"

def Tree.pyStrList : List Tree → String
  | [] => ""
  | [x] => Tree.pyStr x
  | x :: xs => Tree.pyStr x ++ ", " ++ Tree.pyStrList xs

def Tree.pyStrKVs : List (String × Tree) → String
  | [] => ""
  | [(k, v)] => k ++ ": " ++ Tree.pyStr v
  | (k, v) :: xs => k ++ ": " ++ Tree.pyStr v ++ ", " ++ Tree.pyStrKVs xs

end

/-- Whether `needle` occurs as a contiguous run inside `hay` (Python `in` on strings). -/
def listIsSubseqRun (needle hay : List Char) : Bool :=
  needle.isPrefixOf hay ||
    match hay with
    | [] => false
    | _ :: t => listIsSubseqRun needle t

/-- Python `needle in hay` for the value shapes `error_desc` can take:
substring test on strings, key membership on dicts, element membership on
lists; on `None` it raises `TypeError`. -/
def pyInOp (needle : String) (hay : Tree) : Except PyErr Bool :=
  match hay with
  | .str s => .ok (listIsSubseqRun needle.data s.data)
  | .obj kvs => .ok (kvs.any (fun kv => kv.1 == needle))
  | .arr l => .ok (l.any (fun t => Tree.beq t (.str needle)))
  | .null => .error .exc

/-- ASCII lowering of one character (the arm of `str.lower` exercised by
the error descriptions this code inspects). -/
def charLower (c : Char) : Char :=
  if c.toNat ≥ 65 && c.toNat ≤ 90 then Char.ofNat (c.toNat + 32) else c

/-- Python `s.lower()` on a string. -/
def strLower (s : String) : String := ⟨s.data.map charLower⟩

/-! ## Shape normalization

The source repeats one pattern wherever the upstream schema nests a
repeatable field (`yahoo_api.py` lines 206-209 for stat-category nodes,
277-284 for stat nodes, 307-312 for player nodes):

    if not node: <treat as empty>
    if isinstance(node, dict): node = [node]
    for x in node: ...

`normalize_repeated` is that pattern as a function: the sequence of items
the following `for` loop iterates.  A falsy node (absent/`None`, empty
mapping, empty sequence, empty string) yields no items; a non-empty
mapping is wrapped into a one-element sequence; a sequence stands for its
elements; a non-empty string is iterated character by character (Python
string iteration — the later per-item `.get` then raises). -/
def normalize_repeated : Tree → List Tree
  | .obj kvs => if kvs.isEmpty then [] else [.obj kvs]
  | .arr l => l
  | .str s => s.data.map (fun c => Tree.str (String.singleton c))
  | .null => []

/-- The position-eligibility normalization of `parse_player_stats_response`
(`yahoo_api.py` lines 266-270), applied to the `position` node read from a
dict-shaped `eligible_positions`.  Its rule differs from
`normalize_repeated`: a sequence is kept, a single STRING is wrapped into
a one-element sequence, and anything else — a mapping or `None` — leaves
`result["positions"]` at its `[]` default (no dict-wrap here). -/
def normalize_position_node : Tree → List Tree
  | .arr l => l
  | .str s => [.str s]
  | _ => []

/-- The position-eligibility normalization of `Player.from_yahoo_data`
(`models.py` lines 86-92), applied to the entry list of the (dict-shaped)
`player_data` it is called on: reads `eligible_positions` (default `{}`);
when that is a dict, reads `position` (default `[]`) and wraps it only
when it is a single STRING; any other node — a sequence, a mapping, or
`None` — is kept raw, so a single mapping stays a mapping and is not
wrapped into a sequence; a non-dict `eligible_positions` yields `[]`. -/
def from_yahoo_positions (player_data : List (String × Tree)) : Tree :=
  match (assocFind player_data "eligible_positions").getD (.obj []) with
  | .obj kvs =>
    match (assocFind kvs "position").getD (.arr []) with
    | .str s => .arr [.str s]
    | t => t
  | _ => .arr []

/-! ## Response parsing (`yahoo_api.py`) -/

/-- The result dict built by `parse_player_stats_response`
(`yahoo_api.py` lines 233-241): player metadata plus the raw
`(stat_id, value)` entries.  `stat_id` is `str(...)` of the node when the
node is not `None`, else Python `None` (modelled as `Option String`). -/
structure ParsedPlayer where
  player_key : Tree
  name : Tree
  team : Tree
  positions : List Tree
  stats_type : Tree
  week : Tree
  stats : List (Option String × Tree)

/-- The default `result` dict of `parse_player_stats_response` before any
field is filled in. -/
def ParsedPlayer.empty : ParsedPlayer :=
  { player_key := .null, name := .null, team := .null, positions := [],
    stats_type := .null, week := .null, stats := [] }

/-- The stat-collection loop of `parse_player_stats_response`
(`yahoo_api.py` lines 281-284): appends `{stat_id, value}` per node; a
non-dict node makes `s.get` raise, which the enclosing `try` turns into
keeping only the entries appended so far (second component `true` marks
that the loop raised). -/
def collectRawStats : List Tree → List (Option String × Tree) × Bool
  | [] => ([], false)
  | s :: rest =>
    match s with
    | .obj kvs =>
      let sidNode := (assocFind kvs "stat_id").getD .null
      let sid : Option String :=
        match sidNode with
        | .null => none
        | v => some v.pyStr
      let val := (assocFind kvs "value").getD .null
      let (tl, raised) := collectRawStats rest
      ((sid, val) :: tl, raised)
    | _ => ([], true)

/-- Function `parse_player_stats_response` (`yahoo_api.py` lines 224-289): parses
Yahoo's league-scoped single-player stats response into a flat record.
The Python body runs inside `try/except`; an exception mid-way returns
the partially filled `result`, which the early `return`s below mirror. -/
def parse_player_stats_response (data : Tree) : ParsedPlayer := Id.run do
  let mut r := ParsedPlayer.empty
  -- league = data.get("fantasy_content", {}).get("league", {})
  let .ok fc := data.pyGetD "fantasy_content" (.obj []) | return r
  let .ok league := fc.pyGetD "league" (.obj []) | return r
  -- players_node = league.get("players", {}); player_entry = players_node.get("player")
  let .ok players_node := league.pyGetD "players" (.obj []) | return r
  let .ok player_entry := players_node.pyGet "player" | return r
  -- Normalize to a single player dict
  let player ← match player_entry with
    | .arr [] => return r                 -- player_entry[0] raises IndexError
    | .arr (p :: _) => pure p
    | .obj kvs => pure (Tree.obj kvs)
    | _ => return r                       -- neither list nor dict: return result
  -- Player key & identity
  let .ok pk := player.pyGet "player_key" | return r
  r := { r with player_key := pk }
  let .ok name_node := player.pyGetD "name" (.obj []) | return r
  if let .obj nkvs := name_node then
    r := { r with name := (assocFind nkvs "full").getD .null }
  let .ok team := player.pyGet "editorial_team_abbr" | return r
  r := { r with team := team }
  -- Positions (eligibility): list kept, single string wrapped, else the
  -- [] default stands (lines 264-270)
  let .ok pos_node := player.pyGet "eligible_positions" | return r
  if let .obj pkvs := pos_node then
    r := { r with positions := normalize_position_node ((assocFind pkvs "position").getD .null) }
  -- Stats payload
  let .ok ps := player.pyGetD "player_stats" (.obj []) | return r
  -- result["stats_type"] = ps.get("coverage_type") or ps.get("stats", {}).get("coverage_type")
  let .ok ct := ps.pyGet "coverage_type" | return r
  if ct.truthy then
    r := { r with stats_type := ct }
  else
    let .ok psStats := ps.pyGetD "stats" (.obj []) | return r
    let .ok ct2 := psStats.pyGet "coverage_type" | return r
    r := { r with stats_type := ct2 }
  -- result["week"] = ps.get("week") or ps.get("stats", {}).get("week")
  let .ok wk := ps.pyGet "week" | return r
  if wk.truthy then
    r := { r with week := wk }
  else
    let .ok psStats := ps.pyGetD "stats" (.obj []) | return r
    let .ok wk2 := psStats.pyGet "week" | return r
    r := { r with week := wk2 }
  -- stats_node = ps.get("stats", {}).get("stat"); normalize and collect
  let .ok psStats := ps.pyGetD "stats" (.obj []) | return r
  let .ok stats_node := psStats.pyGet "stat" | return r
  let (collected, _) := collectRawStats (normalize_repeated stats_node)
  r := { r with stats := collected }
  return r

/-- The wrapper `parse_multi_player_stats_response` builds around each
player entry (`yahoo_api.py` lines 316-320) so the single-player parser
can be reused. -/
def wrapPlayerEntry (entry : Tree) : Tree :=
  .obj [("fantasy_content",
    .obj [("league", .obj [("players", .obj [("player", entry)])])])]

/-- Function `parse_multi_player_stats_response` (`yahoo_api.py` lines 292-326):
normalizes the `player` node to a list and parses each entry via the
single-player parser; any exception in the outer `.get` chain returns the
(still empty) results list. -/
def parse_multi_player_stats_response (data : Tree) : List ParsedPlayer := Id.run do
  let .ok fc := data.pyGetD "fantasy_content" (.obj []) | return []
  let .ok league := fc.pyGetD "league" (.obj []) | return []
  let .ok players_node := league.pyGetD "players" (.obj []) | return []
  let .ok player_entries := players_node.pyGet "player" | return []
  if !player_entries.truthy then
    return []
  return (normalize_repeated player_entries).map
    (fun entry => parse_player_stats_response (wrapPlayerEntry entry))

/-! ## The upstream HTTP layer (`yahoo_api.py` `fetch_yahoo`, `config.py`) -/

/-- What the upstream provider does for one authenticated GET of a URL:
an OK response whose XML decodes to `body`, a non-OK status (with the
decoded error body when the payload is parseable), or a network/decoding
exception. -/
inductive UpResp where
  | ok (body : Tree)
  | httpErr (status : Nat) (body : Option Tree)
  | exc

/-- The external world a fetch runs against: whether `yahoo_session()`
yields a session (a stored OAuth token exists), and the upstream
provider's response per URL. -/
structure Env where
  authenticated : Bool
  upstream : String → UpResp

/-- Constant `config.YAHOO_BASE_URL`. -/
def YAHOO_BASE_URL : String := "https://fantasysports.yahooapis.com/fantasy/v2"

/-- Constant `config.CACHE_TTL` (seconds). -/
def CACHE_TTL : Int := 3600

/-- Function `fetch_yahoo` (`yahoo_api.py` lines 17-58).  Unauthenticated: returns
the `{"error": "Not authenticated"}` dict without touching upstream.
Otherwise one upstream GET: an OK response returns its decoded body; a
non-OK response raises `HTTPError` via `raise_for_status` (redirect
statuses, which the `requests` session resolves internally, are not
modelled as separate responses); a request or decoding exception
propagates.  The second component is the list of upstream URLs actually
requested. -/
def fetch_yahoo (env : Env) (url : String) : Except PyErr Tree × List String :=
  if !env.authenticated then
    (.ok (.obj [("error", .str "Not authenticated")]), [])
  else
    match env.upstream url with
    | .ok body => (.ok body, [url])
    | .httpErr status body => (.error (.httpError status body), [url])
    | .exc => (.error .exc, [url])

/-- Function `build_player_stats_url` (`yahoo_api.py` lines 141-159; the
`stats_type`/`week` arguments are unused in the URL and omitted here). -/
def build_player_stats_url (league_id player_key : String) : String :=
  YAHOO_BASE_URL ++ "/league/" ++ league_id ++ "/players;player_keys=" ++
    player_key ++ "/stats"

/-- Function `build_multi_player_stats_url` (`yahoo_api.py` lines 162-184):
comma-joins the player keys into one league-scoped stats URL. -/
def build_multi_player_stats_url (league_id : String) (player_keys : List String) : String :=
  YAHOO_BASE_URL ++ "/league/" ++ league_id ++ "/players;player_keys=" ++
    String.intercalate "," player_keys ++ "/stats"

/-- The league-settings URL used by `get_league_stat_categories`
(`yahoo_api.py` line 197). -/
def settings_url (league_id : String) : String :=
  YAHOO_BASE_URL ++ "/league/" ++ league_id ++ "/settings"

/-- Insert-or-overwrite into an insertion-ordered mapping (Python
`mapping[sid] = disp`): an existing key keeps its position, a new key is
appended. -/
def assocInsert (m : List (String × Tree)) (k : String) (v : Tree) : List (String × Tree) :=
  if m.any (fun kv => kv.1 == k) then
    m.map (fun kv => if kv.1 == k then (kv.1, v) else kv)
  else
    m ++ [(k, v)]

/-- The mapping-building loop of `get_league_stat_categories`
(`yahoo_api.py` lines 211-217) over the normalized stat nodes.  A
non-dict node makes `s.get` raise, which the enclosing `try` turns into
discarding the whole mapping (`.error`). -/
def statCategoriesLoop (m : List (String × Tree)) : List Tree → Except PyErr (List (String × Tree))
  | [] => .ok m
  | s :: rest =>
    match s with
    | .obj kvs =>
      let sidNode := (assocFind kvs "stat_id").getD .null
      let sid : Option String :=
        match sidNode with
        | .null => none
        | v => some v.pyStr
      match sid with
      | none => statCategoriesLoop m rest
      | some sidStr =>
        if sidStr.isEmpty then
          statCategoriesLoop m rest        -- `if not sid: continue`
        else
          let dispName := (assocFind kvs "display_name").getD .null
          let nameNode := (assocFind kvs "name").getD .null
          let disp := pyOr dispName (pyOr nameNode (.str ("stat_" ++ sidStr)))
          statCategoriesLoop (assocInsert m sidStr disp) rest
    | _ => .error .exc

/-- The pure part of `get_league_stat_categories` (`yahoo_api.py` lines
198-221) applied to the outcome of its one fetch: walks to the stat
nodes and builds the mapping; any exception (a raised fetch, a non-dict
on the `.get` chain, a bad stat node) yields the empty mapping. -/
def statCategoriesOf (res : Except PyErr Tree) : List (String × Tree) := Id.run do
  let .ok data := res | return []          -- failed fetch → empty mapping
  let .ok fc := data.pyGetD "fantasy_content" (.obj []) | return []
  let .ok league := fc.pyGetD "league" (.obj []) | return []
  let .ok settings := league.pyGetD "settings" (.obj []) | return []
  let .ok statCats := settings.pyGetD "stat_categories" (.obj []) | return []
  let .ok statsNode := statCats.pyGetD "stats" (.obj []) | return []
  let .ok statNode := statsNode.pyGet "stat" | return []
  if !statNode.truthy then
    return []                              -- `if not stats_node: return {}`
  match statCategoriesLoop [] (normalize_repeated statNode) with
  | .ok m => return m
  | .error _ => return []

/-- Function `get_league_stat_categories` (`yahoo_api.py` lines 187-221):
fetches `league/{league_id}/settings` once and builds the
`stat_id -> display_name` mapping via `statCategoriesOf`, where a missing
`display_name` falls back to `name` and then to the synthesized
`"stat_" + stat_id`; on any failure it returns the empty mapping rather
than propagating the error. -/
def get_league_stat_categories (env : Env) (league_id : String) :
    List (String × Tree) × List String :=
  let (res, log) := fetch_yahoo env (settings_url league_id)
  (statCategoriesOf res, log)

/-! ## Enriched stats (`yahoo_api.py` lines 409-428, `models.py` 211-229) -/

/-- One enriched stat entry `{stat_id, stat_name, value}`.  `stat_name`
is `id_to_name.get(sid)`, hence `None` when the id is unknown. -/
structure StatEntry where
  stat_id : Option String
  stat_name : Tree
  value : Tree

/-- One enriched per-player stats dict as built by `_fetch_players_stats`,
`_fetch_players_stats_individual` and `Player.get_stats`. -/
structure Enriched where
  league_id : String
  player_key : Tree
  name : Tree
  team : Tree
  positions : List Tree
  stats_type : Tree
  week : Tree
  stats : List StatEntry

/-- Python `str | None` parameters (`stats_type`, `week`) as decoded
values. -/
def optTree : Option String → Tree
  | some s => .str s
  | none => .null

/-- The per-stat enrichment loop (`yahoo_api.py` lines 411-418 and
481-488, `models.py` lines 211-218): attach
`stat_name = id_to_name.get(sid)` to each raw `(stat_id, value)` pair,
leaving `value` untouched. -/
def enrichStats (id_to_name : List (String × Tree))
    (raw : List (Option String × Tree)) : List StatEntry :=
  raw.map (fun sv =>
    { stat_id := sv.1,
      stat_name := match sv.1 with
        | some s => (assocFind id_to_name s).getD .null
        | none => .null,
      value := sv.2 })

/-- The enriched dict literal of `_fetch_players_stats` (lines 419-428)
and `_fetch_players_stats_individual` (lines 489-498). -/
def mkEnriched (league_id : String) (parsed : ParsedPlayer)
    (id_to_name : List (String × Tree)) (stats_type week : Option String) : Enriched :=
  { league_id := league_id,
    player_key := parsed.player_key,
    name := parsed.name,
    team := parsed.team,
    positions := parsed.positions,
    stats_type := pyOr parsed.stats_type (optTree stats_type),
    week := pyOr parsed.week (optTree week),
    stats := enrichStats id_to_name parsed.stats }

/-! ## Individual-fetch fallback (`yahoo_api.py` lines 448-503) -/

/-- The per-player loop of `_fetch_players_stats_individual` (lines
468-501): fetch each key; an error response or any exception skips that
key (`continue`); a parsed result is kept only when its `player_key` is
truthy.  Never raises. -/
def individualLoop (env : Env) (id_to_name : List (String × Tree))
    (league_id : String) (stats_type week : Option String) :
    List String → List Enriched × List String
  | [] => ([], [])
  | pk :: rest =>
    let url := build_player_stats_url league_id pk
    let (res, log) := fetch_yahoo env url
    let (tl, tlog) := individualLoop env id_to_name league_id stats_type week rest
    match res with
    | .error _ => (tl, log ++ tlog)        -- exception → skip
    | .ok raw =>
      let isErrorDict : Bool :=
        match raw with
        | .obj kvs => ((assocFind kvs "error").getD .null).truthy
        | _ => false
      if isErrorDict then
        (tl, log ++ tlog)                  -- error response → skip
      else
        let parsed := parse_player_stats_response raw
        if parsed.player_key.truthy then
          (mkEnriched league_id parsed id_to_name stats_type week :: tl, log ++ tlog)
        else
          (tl, log ++ tlog)

/-- Function `_fetch_players_stats_individual` (`yahoo_api.py` lines 448-503):
resolves the stat-category mapping once, then fetches each player
sequentially, skipping any key whose fetch errors. -/
def _fetch_players_stats_individual (env : Env) (league_id : String)
    (player_keys : List String) (stats_type week : Option String) :
    List Enriched × List String :=
  let (id_to_name, catLog) := get_league_stat_categories env league_id
  let (es, log) := individualLoop env id_to_name league_id stats_type week player_keys
  (es, catLog ++ log)

/-- The expression `error.get("description", "") if isinstance(error, dict) else ""`
(`yahoo_api.py` lines 396 and 437). -/
def errorDescOf (errNode : Tree) : Tree :=
  match errNode with
  | .obj kvs => (assocFind kvs "description").getD (.str "")
  | _ => .str ""

/-- The test `"does not exist" in error_desc or "invalid" in error_desc.lower()`
(`yahoo_api.py` lines 399 and 439), including the exceptions Python's
`in` and `.lower()` raise on non-string descriptions. -/
def invalidKeyCheck (error_desc : Tree) : Except PyErr Bool := do
  let b1 ← pyInOp "does not exist" error_desc
  if b1 then
    return true
  match error_desc with
  | .str s => pyInOp "invalid" (.str (strLower s))
  | _ => .error .exc                       -- `.lower()` on a non-string raises

/-- Function `_fetch_players_stats` (`yahoo_api.py` lines 366-445): try the batch
request; if the response carries an invalid-key error description — or an
HTTP 400 whose parseable body does — fall back to individual per-player
fetches; other in-band errors raise `RuntimeError`, other exceptions
propagate. -/
def _fetch_players_stats (env : Env) (league_id : String)
    (player_keys : List String) (stats_type week : Option String) :
    Except PyErr (List Enriched) × List String := Id.run do
  if player_keys.isEmpty then
    return (.ok [], [])
  let url := build_multi_player_stats_url league_id player_keys
  match fetch_yahoo env url with
  | (.ok raw, log) =>
    let errNode : Tree :=
      match raw with
      | .obj kvs => (assocFind kvs "error").getD .null
      | _ => .null                         -- `isinstance(raw, dict)` fails
    if errNode.truthy then
      match invalidKeyCheck (errorDescOf errNode) with
      | .ok true =>
        let (es, l2) := _fetch_players_stats_individual env league_id player_keys stats_type week
        return (.ok es, log ++ l2)
      | .ok false => return (.error (.runtimeError raw), log)
      | .error e => return (.error e, log) -- TypeError from `in` propagates
    else
      let parsed_list := parse_multi_player_stats_response raw
      let (id_to_name, catLog) := get_league_stat_categories env league_id
      let enriched := parsed_list.map
        (fun parsed => mkEnriched league_id parsed id_to_name stats_type week)
      return (.ok enriched, log ++ catLog)
  | (.error (.httpError 400 (some body)), log) =>
    -- `except HTTPError` with a parseable 400 body: retry individually when
    -- the error description signals invalid keys; any exception inside this
    -- check is swallowed and the original HTTPError re-raised.
    let check : Except PyErr Bool := do
      let errNode ← body.pyGetD "error" (.obj [])
      invalidKeyCheck (errorDescOf errNode)
    match check with
    | .ok true =>
      let (es, l2) := _fetch_players_stats_individual env league_id player_keys stats_type week
      return (.ok es, log ++ l2)
    | _ => return (.error (.httpError 400 (some body)), log)
  | (.error e, log) => return (.error e, log)

/-! ## League-id normalization (`utils.py`) -/

/-- Python `str.isdigit` on the ASCII league ids this deployment uses:
non-empty and all digits. -/
def py_isdigit (s : String) : Bool :=
  !s.data.isEmpty && s.data.all Char.isDigit

/-- Function `normalize_league_id` (`utils.py` lines 5-16): a bare numeric id is
expanded to the fully-qualified `461.l.{id}` form; anything else is
returned unchanged. -/
def normalize_league_id (league_id : String) : String :=
  if py_isdigit league_id then "461.l." ++ league_id else league_id

/-! ## The per-player stats cache (`models.py`) -/

/-- One `_stats_cache` entry: `{"stats": ..., "timestamp": ...}`
(`models.py` lines 232-235 and `yahoo_api.py` lines 552-555). -/
structure CacheEntry where
  stats : Enriched
  timestamp : Int

/-- The slice of a `Player` object the modelled functions read or write:
its key, the identity fields `get_stats` falls back to, and the
`_stats_cache` mapping (`models.py` lines 47-61). -/
structure PlayerObj where
  player_key : Tree
  name : Tree
  team : Tree
  cache : List (String × CacheEntry)

/-- The ad hoc cache key
`f"{normalized_league_id}_{stats_type or 'season'}_{week or 'all'}"`
(`models.py` line 188, `yahoo_api.py` line 544). -/
def cache_key_of (normalized_league_id : String) (stats_type week : Option String) : String :=
  normalized_league_id ++ "_" ++
    (match stats_type with
     | some s => if s.isEmpty then "season" else s
     | none => "season") ++ "_" ++
    (match week with
     | some s => if s.isEmpty then "all" else s
     | none => "all")

/-- Lookup in a `_stats_cache` mapping. -/
def cacheFind (c : List (String × CacheEntry)) (k : String) : Option CacheEntry :=
  match c.find? (fun kv => kv.1 == k) with
  | some kv => some kv.2
  | none => none

/-- Insert-or-overwrite into a `_stats_cache` mapping
(`self._stats_cache[cache_key] = ...`). -/
def cacheInsert (c : List (String × CacheEntry)) (k : String) (e : CacheEntry) :
    List (String × CacheEntry) :=
  if c.any (fun kv => kv.1 == k) then
    c.map (fun kv => if kv.1 == k then (kv.1, e) else kv)
  else
    c ++ [(k, e)]

/-- Method `Player.get_stats` (`models.py` lines 165-241) at wall-clock time
`now`: without a truthy player key, `None`; on a live cache entry
(`age < CACHE_TTL`, unless `force_refresh`), the cached stats with no
upstream call; otherwise fetch, parse, enrich (name/team falling back to
the player object's own), store `{stats, timestamp}` under the cache key,
and return the result; a fetch error or an in-band error response returns
`None` without touching the cache. -/
def Player.get_stats (env : Env) (now : Int) (p : PlayerObj) (league_id : String)
    (stats_type week : Option String) (force_refresh : Bool) :
    Option Enriched × PlayerObj × List String := Id.run do
  if !p.player_key.truthy then
    return (none, p, [])
  let nlid := normalize_league_id league_id
  let ck := cache_key_of nlid stats_type week
  -- Check cache if not forcing refresh
  if !force_refresh then
    if let some entry := cacheFind p.cache ck then
      if now - entry.timestamp < CACHE_TTL then
        return (some entry.stats, p, [])
  -- Cache miss or expired - fetch fresh data
  let url := build_player_stats_url nlid p.player_key.pyStr
  match fetch_yahoo env url with
  | (.error _, log) => return (none, p, log)   -- `except Exception` → None
  | (.ok data, log) =>
    let isErrorDict : Bool :=
      match data with
      | .obj kvs => ((assocFind kvs "error").getD .null).truthy
      | _ => false
    if isErrorDict then
      return (none, p, log)                    -- error response → None, no cache write
    let parsed := parse_player_stats_response data
    let (stat_categories, catLog) := get_league_stat_categories env nlid
    let result : Enriched :=
      { league_id := nlid,
        player_key := p.player_key,
        name := pyOr parsed.name p.name,
        team := pyOr parsed.team p.team,
        positions := parsed.positions,
        stats_type := pyOr parsed.stats_type (optTree stats_type),
        week := pyOr parsed.week (optTree week),
        stats := enrichStats stat_categories parsed.stats }
    return (some result,
      { p with cache := cacheInsert p.cache ck ⟨result, now⟩ },
      log ++ catLog)

/-! ## Batch fetch with cache population (`yahoo_api.py` lines 506-562) -/

/-- Insert-or-overwrite into the `stats_dict` keyed by the (deeply
compared) `player_key` value. -/
def statsDictInsert (d : List (Tree × Enriched)) (k : Tree) (v : Enriched) :
    List (Tree × Enriched) :=
  if d.any (fun kv => Tree.beq kv.1 k) then
    d.map (fun kv => if Tree.beq kv.1 k then (kv.1, v) else kv)
  else
    d ++ [(k, v)]

/-- The cache-population loop of `batch_fetch_player_stats` (lines
546-556) as it acts on one player object: every enriched dict whose
truthy `player_key` equals the player's overwrites the entry under
`cache_key` (the last one wins). -/
def applyBatchCache (now : Int) (ck : String) (enriched : List Enriched)
    (p : PlayerObj) : PlayerObj :=
  enriched.foldl
    (fun q sd =>
      if sd.player_key.truthy && Tree.beq q.player_key sd.player_key then
        { q with cache := cacheInsert q.cache ck ⟨sd, now⟩ }
      else q)
    p

/-- The `stats_dict` built by the same loop. -/
def buildStatsDict (enriched : List Enriched) : List (Tree × Enriched) :=
  enriched.foldl
    (fun d sd => if sd.player_key.truthy then statsDictInsert d sd.player_key sd else d)
    []

/-- All player keys as strings, or `None` when one of them is a truthy
non-string (in which case `",".join` inside the URL builder raises and
the enclosing `try` returns the empty dict). -/
def keysAsStrings : List Tree → Option (List String)
  | [] => some []
  | .str s :: rest => (keysAsStrings rest).map (fun tl => s :: tl)
  | _ => none

/-- Function `batch_fetch_player_stats` (`yahoo_api.py` lines 506-562) at
wall-clock time `now`: filters players with truthy keys, normalizes the
league id, runs the two-tier batch fetch, populates each matching
player's `_stats_cache`, and returns the `player_key -> stats` dict; any
exception yields the empty dict (and no cache writes, since the writes
happen after the fetch).  Returns `(stats_dict, updated players, upstream
URLs fetched)`. -/
def batch_fetch_player_stats (env : Env) (now : Int) (players : List PlayerObj)
    (league_id : String) (stats_type week : Option String) :
    List (Tree × Enriched) × List PlayerObj × List String := Id.run do
  if players.isEmpty then
    return ([], players, [])
  let valid := players.filter (fun p => p.player_key.truthy)
  if valid.isEmpty then
    return ([], players, [])
  let some player_keys := keysAsStrings (valid.map (fun p => p.player_key))
    | return ([], players, [])
  let nlid := normalize_league_id league_id
  match _fetch_players_stats env nlid player_keys stats_type week with
  | (.error _, log) => return ([], players, log)  -- `except Exception` → {}
  | (.ok enriched, log) =>
    let ck := cache_key_of nlid stats_type week
    let updated := players.map (fun p =>
      if p.player_key.truthy then applyBatchCache now ck enriched p else p)
    return (buildStatsDict enriched, updated, log)

/-! ## Route-level helpers (`routes.py`) -/

/-- The skipped-key computation of the `/player` route (`routes.py` lines
643-645): `requested_keys - returned_keys` where `returned_keys` are the
truthy `player_key` values of the enriched results.  The set difference
is represented as the sublist of requested keys not returned. -/
def missing_keys (requested : List String) (enriched : List Enriched) : List String :=
  let returned := (enriched.map (fun e => e.player_key)).filter Tree.truthy
  requested.filter (fun k => !(returned.any (fun t => Tree.beq t (.str k))))

/-- Decimal-numeral semantics of a digit run. -/
def digitsVal (cs : List Char) : Nat :=
  cs.foldl (fun a c => a * 10 + (c.toNat - 48)) 0

/-- Python `float(s)` on the decimal numerals upstream stat values use:
optional sign, integer digits, optional fractional digits, at least one
digit in all; anything else (for instance the literal dash `"-"`) raises
`ValueError`, modelled as `none`. -/
def pyFloatOfString (s : String) : Option Rat := Id.run do
  let cs := s.data
  let (neg, cs) :=
    match cs with
    | '-' :: rest => (true, rest)
    | '+' :: rest => (false, rest)
    | _ => (false, cs)
  let ip := cs.takeWhile Char.isDigit
  let rest := cs.dropWhile Char.isDigit
  let fp ← match rest with
    | [] => if ip.isEmpty then return none else pure ([] : List Char)
    | '.' :: fr =>
      if fr.all Char.isDigit && !(ip.isEmpty && fr.isEmpty) then pure fr
      else return none
    | _ => return none
  let mag : Rat := (digitsVal ip : Rat) + (digitsVal fp : Rat) / ((10 : Rat) ^ fp.length)
  return some (if neg then -mag else mag)

/-- Python `float(value)` on a decoded value: only strings can succeed;
`float(None)`, `float(dict)`, `float(list)` raise `TypeError`. -/
def pyFloat? : Tree → Option Rat
  | .str s => pyFloatOfString s
  | _ => none

/-- The expression `num_value = float(value) if value else 0` guarded by
`except (ValueError, TypeError): continue` (`routes.py` lines 377-381):
a falsy value contributes `0`; a truthy non-numeric value is skipped. -/
def statNumValue (v : Tree) : Option Rat :=
  if v.truthy then pyFloat? v else some 0

/-- Insert-or-add into an insertion-ordered numeric accumulator
(`if sid not in d: d[sid] = 0` then `d[sid] += num`). -/
def ratAssocAdd (m : List (String × Rat)) (k : String) (x : Rat) : List (String × Rat) :=
  if m.any (fun kv => kv.1 == k) then
    m.map (fun kv => if kv.1 == k then (kv.1, kv.2 + x) else kv)
  else
    m ++ [(k, x)]

/-- The expression `str(stat.get("stat_id"))` on an enriched entry (`routes.py` line
374): Python renders a `None` id as the string `"None"`. -/
def statIdStr : Option String → String
  | some s => s
  | none => "None"

/-- The per-stat body of the rollup loop (`routes.py` lines 373-391),
acting on the running per-position mapping for the current player's
position and the running totals. -/
def rollupStat (pos : String)
    (acc : List (String × List (String × Rat)) × List (String × Rat))
    (st : StatEntry) :
    List (String × List (String × Rat)) × List (String × Rat) :=
  match statNumValue st.value with
  | none => acc                              -- non-numeric → continue
  | some x =>
    let sid := statIdStr st.stat_id
    let byPos := acc.1.map (fun kv =>
      if kv.1 == pos then (kv.1, ratAssocAdd kv.2 sid x) else kv)
    (byPos, ratAssocAdd acc.2 sid x)

/-- The roster rollup of the `/team-stats` route (`routes.py` lines
364-391): one row per player whose `get_stats` returned stats, as
`(position, stats)`; each row first ensures its position key exists
(`stats_by_position[position] = {}`), then folds every stat entry whose
value is numeric (or falsy, contributing 0) into the per-position and
total sums. -/
def aggregate_team_stats (rows : List (String × List StatEntry)) :
    List (String × List (String × Rat)) × List (String × Rat) :=
  rows.foldl
    (fun acc row =>
      let byPos :=
        if acc.1.any (fun kv => kv.1 == row.1) then acc.1
        else acc.1 ++ [(row.1, [])]
      row.2.foldl (rollupStat row.1) (byPos, acc.2))
    ([], [])

/-! ## Derived observer: did the underlying fetch fail?

The source treats two situations as a failed per-player fetch
(`models.py` lines 199-205, 239-241): the fetch raising, and a `2xx`
response whose decoded dict carries a truthy `error` entry. -/

/-- Whether `fetch_yahoo` on `url` either raises or yields an in-band
error dict — the two cases `Player.get_stats` answers with `None`. -/
def fetchFailed (env : Env) (url : String) : Bool :=
  match (fetch_yahoo env url).1 with
  | .error _ => true
  | .ok t =>
    match t with
    | .obj kvs => ((assocFind kvs "error").getD .null).truthy
    | _ => false

/-! ## Concrete scenario material used by the claim theorems

A small fixed world: a league, well-formed single-player stats responses,
error responses, and environments wiring them to the URLs the code
builds. -/

/-- A well-formed decoded `player` node for key `pk` carrying one stat. -/
def samplePlayerNode (pk : String) : Tree :=
  .obj [("player_key", .str pk),
        ("name", .obj [("full", .str ("N" ++ pk))]),
        ("editorial_team_abbr", .str "SF"),
        ("eligible_positions", .obj [("position", .str "QB")]),
        ("player_stats", .obj [("coverage_type", .str "season"),
          ("stats", .obj [("stat", .arr [
             .obj [("stat_id", .str "5"), ("value", .str "10")]])])])]

/-- A full decoded single-player stats response for key `pk`. -/
def sampleGoodResp (pk : String) : Tree :=
  wrapPlayerEntry (samplePlayerNode pk)

/-- A decoded in-band error response with description `msg`. -/
def sampleErrorResp (msg : String) : Tree :=
  .obj [("error", .obj [("description", .str msg)])]

/-- The fully-qualified league key of the scenario. -/
def sampleLeague : String := "461.l.12345"

/-- Five valid player keys and one invalid one. -/
def sampleKeys6 : List String := ["k1", "k2", "k3", "k4", "k5", "bad"]

/-- Environment for the partial-failure scenario: the 6-key batch URL is
answered with an invalid-key error, each valid key individually with a
good response, the invalid key with an error, and the settings URL with
an empty body (so the category mapping is empty). -/
def envInvalidBatch : Env :=
  { authenticated := true,
    upstream := fun url =>
      if url = build_multi_player_stats_url sampleLeague sampleKeys6 then
        .ok (sampleErrorResp "Player key bad does not exist.")
      else if url = settings_url sampleLeague then
        .ok (.obj [])
      else if url = build_player_stats_url sampleLeague "bad" then
        .ok (sampleErrorResp "invalid player key")
      else if url = build_player_stats_url sampleLeague "k1" then .ok (sampleGoodResp "k1")
      else if url = build_player_stats_url sampleLeague "k2" then .ok (sampleGoodResp "k2")
      else if url = build_player_stats_url sampleLeague "k3" then .ok (sampleGoodResp "k3")
      else if url = build_player_stats_url sampleLeague "k4" then .ok (sampleGoodResp "k4")
      else if url = build_player_stats_url sampleLeague "k5" then .ok (sampleGoodResp "k5")
      else .exc }

/-- A player object with key `p1` and an empty stats cache. -/
def playerP1 : PlayerObj :=
  { player_key := .str "p1", name := .null, team := .null, cache := [] }

/-- Environment for the caching scenarios: batch and individual URLs for
`p1` answer with the good response, settings with an empty body. -/
def envSingle : Env :=
  { authenticated := true,
    upstream := fun url =>
      if url = build_multi_player_stats_url sampleLeague ["p1"] then .ok (sampleGoodResp "p1")
      else if url = settings_url sampleLeague then .ok (.obj [])
      else if url = build_player_stats_url sampleLeague "p1" then .ok (sampleGoodResp "p1")
      else .exc }

/-- The enriched stats the scenario fetch produces for `p1` (category
mapping empty, so `stat_name` is `None`). -/
def enrichedP1 : Enriched :=
  { league_id := sampleLeague, player_key := .str "p1",
    name := .str "Np1", team := .str "SF", positions := [.str "QB"],
    stats_type := .str "season", week := .null,
    stats := [⟨some "5", .null, .str "10"⟩] }

/-- The ad hoc cache key the scenario calls use. -/
def sampleCacheKey : String := "461.l.12345_season_all"

/-- The `p1` player object after a successful fetch at time `t`. -/
def playerP1CachedAt (t : Int) : PlayerObj :=
  { playerP1 with cache := [(sampleCacheKey, ⟨enrichedP1, t⟩)] }

/-- An unauthenticated environment (no stored OAuth token). -/
def envUnauth : Env :=
  { authenticated := false, upstream := fun _ => .exc }

/-- An authenticated environment whose every upstream call raises. -/
def envAllExc : Env :=
  { authenticated := true, upstream := fun _ => .exc }

/-- A decoded settings response whose `stat` node is `statNodes`. -/
def settingsRespWith (statNodes : Tree) : Tree :=
  .obj [("fantasy_content", .obj [("league", .obj [("settings",
    .obj [("stat_categories", .obj [("stats", .obj [("stat", statNodes)])])])])])]

/-- Environment in which the sample league's settings carry one stat
category that has a `name` but no `display_name`. -/
def envNameOnly : Env :=
  { authenticated := true,
    upstream := fun url =>
      if url = settings_url sampleLeague then
        .ok (settingsRespWith (.obj [("stat_id", .str "5"), ("name", .str "Foo")]))
      else .exc }

/-- Environment in which the sample league's settings carry one stat
category that has neither `display_name` nor `name`. -/
def envIdOnly : Env :=
  { authenticated := true,
    upstream := fun url =>
      if url = settings_url sampleLeague then
        .ok (settingsRespWith (.obj [("stat_id", .str "9004")]))
      else .exc }

/-- A player object without a `player_key`. -/
def playerNoKey : PlayerObj :=
  { player_key := .null, name := .str "Ghost", team := .null, cache := [] }

/-! ## General lemmas: fetch logs, unauthenticated runs, cache behaviour -/

/-- Everything `fetch_yahoo` logs is the URL it was asked for. -/
theorem mem_fetch_yahoo_log {env : Env} {u url' : String}
    (h : url' ∈ (fetch_yahoo env u).2) : url' = u := by
  by_cases ha : env.authenticated
  · rcases hu : env.upstream u with body | ⟨s, b⟩ | _ <;>
      simp [fetch_yahoo, ha, hu] at h <;> exact h
  · simp [fetch_yahoo, ha] at h

/-- The category resolver logs exactly what its one settings fetch logs. -/
theorem stat_categories_log (env : Env) (l : String) :
    (get_league_stat_categories env l).2 = (fetch_yahoo env (settings_url l)).2 := by
  unfold get_league_stat_categories
  rcases h : fetch_yahoo env (settings_url l) with ⟨res, log⟩
  rfl

/-- One unrolling of the individual-fetch loop's log. -/
theorem individualLoop_log_cons (env : Env) (m : List (String × Tree))
    (lid : String) (st wk : Option String) (pk : String) (rest : List String) :
    (individualLoop env m lid st wk (pk :: rest)).2 =
      (fetch_yahoo env (build_player_stats_url lid pk)).2 ++
      (individualLoop env m lid st wk rest).2 := by
  rcases h1 : fetch_yahoo env (build_player_stats_url lid pk) with ⟨res, log⟩
  rcases h2 : individualLoop env m lid st wk rest with ⟨tl, tlog⟩
  simp only [individualLoop, h1, h2]
  rcases res with e | raw
  · simp
  · simp only []
    split
    · simp
    · split <;> simp

/-- Every URL the individual-fetch loop logs is the per-player stats URL
of one of the requested keys. -/
theorem mem_individualLoop_log {env : Env} {m : List (String × Tree)}
    {lid : String} {st wk : Option String} {ks : List String} {url' : String}
    (h : url' ∈ (individualLoop env m lid st wk ks).2) :
    ∃ pk, pk ∈ ks ∧ url' = build_player_stats_url lid pk := by
  induction ks with
  | nil => simp [individualLoop] at h
  | cons pk rest ih =>
    rw [individualLoop_log_cons] at h
    rcases List.mem_append.mp h with h | h
    · exact ⟨pk, List.mem_cons_self pk rest, mem_fetch_yahoo_log h⟩
    · obtain ⟨pk2, hmem, heq⟩ := ih h
      exact ⟨pk2, List.mem_cons_of_mem pk hmem, heq⟩

/-- The individual fetcher's log is its category fetch followed by the
per-player loop. -/
theorem individual_log_eq (env : Env) (lid : String) (ks : List String)
    (st wk : Option String) :
    (_fetch_players_stats_individual env lid ks st wk).2 =
      (get_league_stat_categories env lid).2 ++ (individualLoop env
        (get_league_stat_categories env lid).1 lid st wk ks).2 := by
  unfold _fetch_players_stats_individual
  rcases hc : get_league_stat_categories env lid with ⟨m, catLog⟩
  rcases hl : individualLoop env m lid st wk ks with ⟨es, log⟩
  simp [hc, hl]

/-- Every URL `_fetch_players_stats_individual` logs is either the
settings URL or a per-player stats URL of a requested key. -/
theorem mem_individual_log {env : Env} {lid : String} {ks : List String}
    {st wk : Option String} {url' : String}
    (h : url' ∈ (_fetch_players_stats_individual env lid ks st wk).2) :
    url' = settings_url lid ∨ ∃ pk, pk ∈ ks ∧ url' = build_player_stats_url lid pk := by
  rw [individual_log_eq] at h
  rcases List.mem_append.mp h with h | h
  · rw [stat_categories_log] at h
    exact .inl (mem_fetch_yahoo_log h)
  · exact .inr (mem_individualLoop_log h)

/-- Every URL `_fetch_players_stats` logs is the batch URL, the settings
URL, or a per-player stats URL of a requested key. -/
theorem mem_fetch_players_log {env : Env} {lid : String} {ks : List String}
    {st wk : Option String} {url' : String}
    (h : url' ∈ (_fetch_players_stats env lid ks st wk).2) :
    url' = build_multi_player_stats_url lid ks ∨ url' = settings_url lid ∨
      ∃ pk, pk ∈ ks ∧ url' = build_player_stats_url lid pk := by
  unfold _fetch_players_stats at h
  by_cases hk : ks.isEmpty
  · simp [hk, Id.run] at h
  · simp only [hk, Bool.false_eq_true, if_false, Id.run] at h
    split at h
    · -- batch fetch returned a decoded body
      rename_i pr raw log heq
      simp only [Id.pure_eq, Id.bind_eq] at h
      split at h
      · -- error entry truthy: match on the invalid-key check
        split at h
        · -- invalid-key description: fallback
          simp only [List.mem_append] at h
          rcases h with h | h
          · exact .inl (mem_fetch_yahoo_log (by rw [heq]; exact h))
          · rcases mem_individual_log h with h | h
            · exact .inr (.inl h)
            · exact .inr (.inr h)
        · exact .inl (mem_fetch_yahoo_log (by rw [heq]; exact h))
        · exact .inl (mem_fetch_yahoo_log (by rw [heq]; exact h))
      · -- success path: batch log then categories log
        simp only [List.mem_append] at h
        rcases h with h | h
        · exact .inl (mem_fetch_yahoo_log (by rw [heq]; exact h))
        · right; left
          rw [stat_categories_log] at h
          exact mem_fetch_yahoo_log h
    · -- HTTP 400 with a parseable body
      rename_i pr body log heq
      simp only [Id.pure_eq, Id.bind_eq] at h
      split at h
      · simp only [List.mem_append] at h
        rcases h with h | h
        · exact .inl (mem_fetch_yahoo_log (by rw [heq]; exact h))
        · rcases mem_individual_log h with h | h
          · exact .inr (.inl h)
          · exact .inr (.inr h)
      · exact .inl (mem_fetch_yahoo_log (by rw [heq]; exact h))
    · -- any other raised error
      rename_i pr e log hne heq
      simp only [Id.pure_eq, Id.bind_eq] at h
      exact .inl (mem_fetch_yahoo_log (by rw [heq]; exact h))

/-- Every URL `batch_fetch_player_stats` logs was built from the
normalized league id. -/
theorem mem_batch_log {env : Env} {now : Int} {players : List PlayerObj}
    {lid : String} {st wk : Option String} {url' : String}
    (h : url' ∈ (batch_fetch_player_stats env now players lid st wk).2.2) :
    (∃ ks, url' = build_multi_player_stats_url (normalize_league_id lid) ks) ∨
      url' = settings_url (normalize_league_id lid) ∨
      ∃ pk, url' = build_player_stats_url (normalize_league_id lid) pk := by
  unfold batch_fetch_player_stats at h
  by_cases hp : players.isEmpty
  · simp [hp, Id.run] at h
  · simp only [hp, Bool.false_eq_true, if_false, Id.run] at h
    by_cases hv : (players.filter (fun p => p.player_key.truthy)).isEmpty
    · simp [hv] at h
    · simp only [hv, Bool.false_eq_true, if_false] at h
      split at h
      · rename_i player_keys hkeys
        split at h
        · rename_i pr e log heq
          simp only [Id.pure_eq, Id.bind_eq] at h
          have h2 : url' ∈ (_fetch_players_stats env (normalize_league_id lid)
              player_keys st wk).2 := by rw [heq]; exact h
          rcases mem_fetch_players_log h2 with h3 | h3 | ⟨pk, _, h3⟩
          · exact .inl ⟨player_keys, h3⟩
          · exact .inr (.inl h3)
          · exact .inr (.inr ⟨pk, h3⟩)
        · rename_i pr enriched log heq
          simp only [Id.pure_eq, Id.bind_eq] at h
          have h2 : url' ∈ (_fetch_players_stats env (normalize_league_id lid)
              player_keys st wk).2 := by rw [heq]; exact h
          rcases mem_fetch_players_log h2 with h3 | h3 | ⟨pk, _, h3⟩
          · exact .inl ⟨player_keys, h3⟩
          · exact .inr (.inl h3)
          · exact .inr (.inr ⟨pk, h3⟩)
      · simp at h

/-- Unauthenticated, the category resolver returns the empty mapping
without an upstream call. -/
theorem stat_categories_unauth {env : Env} (hauth : env.authenticated = false)
    (lid : String) : get_league_stat_categories env lid = ([], []) := by
  unfold get_league_stat_categories
  simp only [fetch_yahoo, hauth, Bool.not_false, if_true]
  rfl

/-- Unauthenticated, the individual-fetch loop skips every key. -/
theorem individualLoop_unauth {env : Env} (hauth : env.authenticated = false)
    (m : List (String × Tree)) (lid : String) (st wk : Option String) :
    ∀ ks, individualLoop env m lid st wk ks = ([], []) := by
  intro ks
  induction ks with
  | nil => rfl
  | cons pk rest ih =>
    simp only [individualLoop, fetch_yahoo, hauth, Bool.not_false, if_true, ih]
    rfl

/-- Unauthenticated, `_fetch_players_stats_individual` completes normally
with every requested player dropped and no upstream call. -/
theorem individual_unauth {env : Env} (hauth : env.authenticated = false)
    (lid : String) (ks : List String) (st wk : Option String) :
    _fetch_players_stats_individual env lid ks st wk = ([], []) := by
  unfold _fetch_players_stats_individual
  rw [stat_categories_unauth hauth]
  simp [individualLoop_unauth hauth]

/-- Unauthenticated, the batch entry point raises `RuntimeError` carrying
the not-authenticated payload. -/
theorem fetch_players_stats_unauth {env : Env} (hauth : env.authenticated = false)
    (lid : String) {ks : List String} (hk : ks ≠ []) (st wk : Option String) :
    _fetch_players_stats env lid ks st wk =
      (.error (.runtimeError (Tree.obj [("error", Tree.str "Not authenticated")])), []) := by
  have hk2 : ks.isEmpty = false := by
    cases ks
    · exact absurd rfl hk
    · rfl
  unfold _fetch_players_stats
  simp only [hk2, Bool.false_eq_true, if_false, Id.run, fetch_yahoo, hauth,
    Bool.not_false, if_true]
  rfl

/-- A live cache entry is served as-is: no upstream call, no state change. -/
theorem get_stats_cache_hit {env : Env} {p : PlayerObj} {league : String}
    {st wk : Option String} {entry : CacheEntry}
    (hkey : p.player_key.truthy = true)
    (hfind : cacheFind p.cache (cache_key_of (normalize_league_id league) st wk) = some entry) :
    ∀ now : Int, now - entry.timestamp < CACHE_TTL →
       Player.get_stats env now p league st wk false = (some entry.stats, p, []) := by
  intro now hnow
  unfold Player.get_stats
  simp only [hkey, Bool.not_true, Bool.false_eq_true, if_false, Id.run, hfind,
    Bool.not_false, if_true, hnow, if_pos]
  rfl

/-- Past the TTL, `get_stats` goes back upstream. -/
theorem get_stats_cache_expired {env : Env} {p : PlayerObj} {league : String}
    {st wk : Option String} {entry : CacheEntry}
    (hkey : p.player_key.truthy = true)
    (hfind : cacheFind p.cache (cache_key_of (normalize_league_id league) st wk) = some entry)
    (hauth : env.authenticated = true) :
    (Player.get_stats env (entry.timestamp + CACHE_TTL + 1) p league st wk false).2.2 ≠ [] := by
  have hexp : ¬(entry.timestamp + CACHE_TTL + 1 - entry.timestamp < CACHE_TTL) := by omega
  unfold Player.get_stats
  simp only [hkey, Bool.not_true, Bool.false_eq_true, if_false, Id.run, hfind,
    Bool.not_false, if_true, hexp, if_neg, Id.pure_eq, Id.bind_eq]
  rcases hu : env.upstream (build_player_stats_url (normalize_league_id league)
      p.player_key.pyStr) with body | ⟨s, b⟩ | _
  · simp only [fetch_yahoo, hauth, Bool.not_true, Bool.false_eq_true, if_false, hu]
    split
    · simp
    · simp
  · simp only [fetch_yahoo, hauth, Bool.not_true, Bool.false_eq_true, if_false, hu]
    simp
  · simp only [fetch_yahoo, hauth, Bool.not_true, Bool.false_eq_true, if_false, hu]
    simp

/-- With no live cache entry (absent, or present but expired), a failed
fetch returns `None` and leaves the player object — in particular its
cache, including any stale entry — untouched. -/
theorem get_stats_fetch_failure {env : Env} {p : PlayerObj} {league : String}
    {st wk : Option String}
    (hkey : p.player_key.truthy = true)
    (now : Int)
    (hstale : ∀ entry, cacheFind p.cache (cache_key_of (normalize_league_id league) st wk) =
      some entry → ¬(now - entry.timestamp < CACHE_TTL))
    (hfail : fetchFailed env (build_player_stats_url (normalize_league_id league)
      p.player_key.pyStr) = true) :
    Player.get_stats env now p league st wk false =
      (none, p, (fetch_yahoo env (build_player_stats_url (normalize_league_id league)
        p.player_key.pyStr)).2) := by
  unfold Player.get_stats
  rcases hc : cacheFind p.cache (cache_key_of (normalize_league_id league) st wk)
    with _ | entry
  all_goals
    simp only [hkey, Bool.not_true, Bool.false_eq_true, if_false, Id.run, hc,
      Bool.not_false, if_true, Id.pure_eq, Id.bind_eq]
  all_goals try rw [if_neg (hstale entry hc)]
  all_goals
    rcases hf : fetch_yahoo env (build_player_stats_url (normalize_league_id league)
        p.player_key.pyStr) with ⟨res, log⟩
  all_goals unfold fetchFailed at hfail
  all_goals rw [hf] at hfail
  all_goals rcases res with e | data
  · simp only [hf]
  · simp only at hfail
    simp only [hf, hfail, if_true]
  · simp only [hf]
  · simp only at hfail
    simp only [hf, hfail, if_true]

/-- With no live cache entry (absent, or present but expired), a
successful fetch stores the new entry under the cache key — overwriting
any stale one — before returning it. -/
theorem get_stats_fetch_success {env : Env} {p : PlayerObj} {league : String}
    {st wk : Option String}
    (hkey : p.player_key.truthy = true)
    (now : Int)
    (hstale : ∀ entry, cacheFind p.cache (cache_key_of (normalize_league_id league) st wk) =
      some entry → ¬(now - entry.timestamp < CACHE_TTL))
    (hok : fetchFailed env (build_player_stats_url (normalize_league_id league)
      p.player_key.pyStr) = false) :
    ∃ r log2, Player.get_stats env now p league st wk false =
      (some r, { p with cache := cacheInsert p.cache (cache_key_of (normalize_league_id league) st wk) ⟨r, now⟩ }, log2) := by
  unfold Player.get_stats
  rcases hc : cacheFind p.cache (cache_key_of (normalize_league_id league) st wk)
    with _ | entry
  all_goals
    simp only [hkey, Bool.not_true, Bool.false_eq_true, if_false, Id.run, hc,
      Bool.not_false, if_true, Id.pure_eq, Id.bind_eq]
  all_goals try rw [if_neg (hstale entry hc)]
  all_goals
    rcases hf : fetch_yahoo env (build_player_stats_url (normalize_league_id league)
        p.player_key.pyStr) with ⟨res, log⟩
  all_goals unfold fetchFailed at hok
  all_goals rw [hf] at hok
  all_goals rcases res with e | data
  · simp at hok
  · simp only at hok
    simp only [hf, hok, Bool.false_eq_true, if_false]
    exact ⟨_, _, rfl⟩
  · simp at hok
  · simp only at hok
    simp only [hf, hok, Bool.false_eq_true, if_false]
    exact ⟨_, _, rfl⟩

/-- A settings node whose one stat category carries only a `stat_id`
resolves to the synthesized `"stat_" + stat_id` name. -/
theorem stat_categories_synthesized {env : Env} {lid sid : String}
    (hauth : env.authenticated = true)
    (hup : env.upstream (settings_url lid) =
      .ok (settingsRespWith (.obj [("stat_id", .str sid)])))
    (hsid : sid.isEmpty = false) :
    (get_league_stat_categories env lid).1 = [(sid, Tree.str ("stat_" ++ sid))] := by
  unfold get_league_stat_categories
  simp only [fetch_yahoo, hauth, Bool.not_true, Bool.false_eq_true, if_false, hup]
  simp [statCategoriesOf, settingsRespWith, Tree.pyGetD, Tree.pyGet, assocFind,
    normalize_repeated, statCategoriesLoop, Tree.truthy, hsid, pyOr, Tree.pyStr,
    assocInsert, List.find?, Id.run]

/-- A raised settings fetch yields the empty mapping (never propagates). -/
theorem stat_categories_fetch_failure {env : Env} {lid : String} {e : PyErr}
    (h : (fetch_yahoo env (settings_url lid)).1 = .error e) :
    get_league_stat_categories env lid = ([], (fetch_yahoo env (settings_url lid)).2) := by
  unfold get_league_stat_categories
  rcases hf : fetch_yahoo env (settings_url lid) with ⟨res, log⟩
  rw [hf] at h
  simp only at h
  subst h
  rfl

/-- Without a single truthy player key, the batch entry point returns the
empty dict, mutates nothing and fetches nothing. -/
theorem batch_no_valid_keys {env : Env} {now : Int} {players : List PlayerObj}
    {lid : String} {st wk : Option String}
    (hall : ∀ p ∈ players, p.player_key.truthy = false) :
    batch_fetch_player_stats env now players lid st wk = ([], players, []) := by
  unfold batch_fetch_player_stats
  by_cases hp : players.isEmpty
  · simp [hp, Id.run]
  · have hv : (players.filter (fun p => p.player_key.truthy)).isEmpty = true := by
      rw [List.isEmpty_eq_true, List.filter_eq_nil_iff]
      intro a ha
      simp [hall a ha]
    simp [hp, hv, Id.run]

/-! ## The claims -/

/-- Claim C1 (confirmed): with a batch of 5 valid keys and 1 invalid key,
the batch call fails with an upstream invalid-key rejection and
`_fetch_players_stats` decomposes into one individual fetch per requested
player (visible as the six per-player URLs in the upstream log after the
batch and settings calls), skipping only the rejected key: it returns
exactly 5 enriched results — not 0 — and the `/player` route's skipped-key
computation reports exactly the invalid key. -/
theorem c1_partial_failure_containment :
    (∃ es, (_fetch_players_stats envInvalidBatch sampleLeague sampleKeys6 none none).1 =
        .ok es ∧ es.length = 5 ∧ es.length ≠ 0 ∧ missing_keys sampleKeys6 es = ["bad"]) ∧
    (_fetch_players_stats envInvalidBatch sampleLeague sampleKeys6 none none).2 =
      [build_multi_player_stats_url sampleLeague sampleKeys6, settings_url sampleLeague,
       build_player_stats_url sampleLeague "k1", build_player_stats_url sampleLeague "k2",
       build_player_stats_url sampleLeague "k3", build_player_stats_url sampleLeague "k4",
       build_player_stats_url sampleLeague "k5", build_player_stats_url sampleLeague "bad"] :=
  ⟨⟨_, rfl, rfl, by decide, rfl⟩, rfl⟩

/-- Claim C2, counterexample: at three of the claim's cited sites a
single mapping does NOT normalize to the one-element sequence containing
it.  At the stat-list/player-list sites the empty mapping is falsy under
the source's `if not node` guard and yields the empty sequence; at the
position-eligibility site of `parse_player_stats_response` a non-empty
single mapping yields the empty sequence (only lists and strings are
handled); and at the position-eligibility site of
`Player.from_yahoo_data` a single mapping is kept as a raw mapping, not
wrapped into any sequence. -/
theorem c2_single_mapping_counterexample :
    (normalize_repeated (Tree.obj []) = [] ∧
      normalize_repeated (Tree.obj []) ≠ [Tree.obj []]) ∧
    (normalize_position_node (Tree.obj [("x", Tree.str "y")]) = [] ∧
      normalize_position_node (Tree.obj [("x", Tree.str "y")]) ≠
        [Tree.obj [("x", Tree.str "y")]]) ∧
    (from_yahoo_positions
        [("eligible_positions", Tree.obj [("position", Tree.obj [("x", Tree.str "y")])])] =
      Tree.obj [("x", Tree.str "y")] ∧
      from_yahoo_positions
        [("eligible_positions", Tree.obj [("position", Tree.obj [("x", Tree.str "y")])])] ≠
      Tree.arr [Tree.obj [("x", Tree.str "y")]]) := by
  refine ⟨⟨rfl, ?_⟩, ⟨rfl, ?_⟩, rfl, ?_⟩
  · intro h
    rw [show normalize_repeated (Tree.obj []) = [] from rfl] at h
    exact List.noConfusion h
  · intro h
    rw [show normalize_position_node (Tree.obj [("x", Tree.str "y")]) = [] from rfl] at h
    exact List.noConfusion h
  · intro h
    rw [show from_yahoo_positions
        [("eligible_positions", Tree.obj [("position", Tree.obj [("x", Tree.str "y")])])] =
      Tree.obj [("x", Tree.str "y")] from rfl] at h
    exact Tree.noConfusion h

/-- Claim C2 (amended): at the stat-list, stat-category and player-list
sites, normalization maps an absent node to the empty sequence, a single
NON-EMPTY mapping to the one-element sequence containing it (the empty
mapping, falsy in Python, also yields the empty sequence), and an
already-sequence node to itself unchanged; the function is total, so it
never fails.  At the position-eligibility sites the rule differs: a
sequence passes through unchanged and a single STRING is wrapped into a
one-element sequence, but a single mapping is not wrapped —
`parse_player_stats_response` leaves the empty default and
`Player.from_yahoo_data` keeps the raw mapping — and an absent node
yields the empty sequence. -/
theorem c2_normalize_repeated_amended :
    (normalize_repeated Tree.null = [] ∧
      (∀ kvs : List (String × Tree), kvs ≠ [] →
          normalize_repeated (Tree.obj kvs) = [Tree.obj kvs]) ∧
      (∀ l : List Tree, normalize_repeated (Tree.arr l) = l)) ∧
    ((∀ l : List Tree, normalize_position_node (Tree.arr l) = l) ∧
      (∀ s : String, normalize_position_node (Tree.str s) = [Tree.str s]) ∧
      (∀ kvs : List (String × Tree), normalize_position_node (Tree.obj kvs) = []) ∧
      normalize_position_node Tree.null = []) ∧
    ((∀ s : String, from_yahoo_positions
          [("eligible_positions", Tree.obj [("position", Tree.str s)])] =
        Tree.arr [Tree.str s]) ∧
      (∀ l : List Tree, from_yahoo_positions
          [("eligible_positions", Tree.obj [("position", Tree.arr l)])] =
        Tree.arr l) ∧
      (∀ kvs : List (String × Tree), from_yahoo_positions
          [("eligible_positions", Tree.obj [("position", Tree.obj kvs)])] =
        Tree.obj kvs) ∧
      from_yahoo_positions [] = Tree.arr []) := by
  refine ⟨⟨rfl, ?_, fun l => rfl⟩,
    ⟨fun l => rfl, fun s => rfl, fun kvs => rfl, rfl⟩,
    fun s => rfl, fun l => rfl, fun kvs => rfl, rfl⟩
  intro kvs hne
  simp [normalize_repeated, hne]

/-- Witness for C2: the amended theorem applied to a concrete non-empty
mapping at the stat-list site. -/
theorem c2_normalize_repeated_amended_witness :
    normalize_repeated (Tree.obj [("a", Tree.null)]) = [Tree.obj [("a", Tree.null)]] :=
  c2_normalize_repeated_amended.1.2.1 [("a", Tree.null)] (fun h => List.noConfusion h)

/-- Claim C3, counterexample: at the per-player fallback level an
unauthenticated run does NOT abort — `_fetch_players_stats_individual`
completes normally, treating the `Not authenticated` error response of
each of the two requested players as an ordinary per-player skip and
returning the empty result list. -/
theorem c3_unauth_individual_skip_counterexample :
    _fetch_players_stats_individual envUnauth "461.l.1" ["a", "b"] none none = ([], []) := rfl

/-- Claim C3 (amended): an unauthenticated run aborts the whole operation
at the batch level — `_fetch_players_stats` raises `RuntimeError` with
the not-authenticated payload — but at the per-player fallback level the
unauthenticated error response is treated as a per-player skip: the loop
completes normally with every requested player dropped. -/
theorem c3_unauthenticated_amended :
    (∀ (env : Env) (lid : String) (ks : List String) (st wk : Option String),
        env.authenticated = false → ks ≠ [] →
        _fetch_players_stats env lid ks st wk =
          (.error (.runtimeError (Tree.obj [("error", Tree.str "Not authenticated")])), [])) ∧
    (∀ (env : Env) (lid : String) (ks : List String) (st wk : Option String),
        env.authenticated = false →
        _fetch_players_stats_individual env lid ks st wk = ([], [])) :=
  ⟨fun _ lid _ st wk ha hk => fetch_players_stats_unauth ha lid hk st wk,
   fun _ lid ks st wk ha => individual_unauth ha lid ks st wk⟩

/-- Witness for C3: both amended conclusions at a concrete
unauthenticated environment and key list. -/
theorem c3_unauthenticated_amended_witness :
    _fetch_players_stats envUnauth "461.l.1" ["a"] none none =
      (.error (.runtimeError (Tree.obj [("error", Tree.str "Not authenticated")])), []) ∧
    _fetch_players_stats_individual envUnauth "461.l.1" ["a"] none none = ([], []) :=
  ⟨c3_unauthenticated_amended.1 envUnauth "461.l.1" ["a"] none none rfl
      (fun h => List.noConfusion h),
   c3_unauthenticated_amended.2 envUnauth "461.l.1" ["a"] none none rfl⟩

/-- Claim C4, counterexample: a StatEntry whose value is absent (`None`)
is NOT excluded from the rollup — `float(value) if value else 0`
zero-fills falsy values, so the stat id appears in both the per-position
and total sums with value 0. -/
theorem c4_absent_value_zero_filled_counterexample :
    aggregate_team_stats [("QB", [⟨some "5", Tree.null, Tree.null⟩])] =
      ([("QB", [("5", 0)])], [("5", 0)]) ∧
    ((aggregate_team_stats [("QB", [⟨some "5", Tree.null, Tree.null⟩])]).2.map
      Prod.fst) = ["5"] :=
  ⟨rfl, rfl⟩

/-- Claim C4 (amended): enrichment preserves every stat entry's value
verbatim in the per-player output; a truthy non-numeric placeholder
(the literal dash) is excluded from the per-position and total sums; but
an entry with an absent (falsy) value is zero-filled into the sums rather
than excluded. -/
theorem c4_nonnumeric_stat_amended :
    (∀ (m : List (String × Tree)) (raw : List (Option String × Tree)),
        (enrichStats m raw).map StatEntry.value = raw.map Prod.snd) ∧
    (∀ (pos : String) (idn : Option String) (n : Tree),
        aggregate_team_stats [(pos, [⟨idn, n, Tree.str "-"⟩])] = ([(pos, [])], [])) ∧
    (∀ (pos sid : String) (n : Tree),
        aggregate_team_stats [(pos, [⟨some sid, n, Tree.null⟩])] =
          ([(pos, [(sid, 0)])], [(sid, 0)])) := by
  refine ⟨?_, fun pos idn n => rfl, ?_⟩
  · intro m raw
    induction raw with
    | nil => rfl
    | cons hd tl ih =>
      simp only [enrichStats, List.map_cons, List.map_map] at ih ⊢
      rw [ih]
  · intro pos sid n
    simp [aggregate_team_stats, rollupStat, statNumValue, ratAssocAdd, statIdStr,
      Tree.truthy]

/-- Claim C5, counterexample: calling the multi-player facade a second
time within the TTL window does NOT issue zero upstream calls — the
second invocation re-issues exactly the same batch and settings calls,
because `batch_fetch_player_stats` never reads the cache it populates. -/
theorem c5_second_call_not_cached_counterexample :
    (batch_fetch_player_stats envSingle 10 [playerP1CachedAt 0] sampleLeague none none).2.2 =
      [build_multi_player_stats_url sampleLeague ["p1"], settings_url sampleLeague] ∧
    (batch_fetch_player_stats envSingle 10 [playerP1CachedAt 0] sampleLeague none none).2.2 ≠
      [] := by
  refine ⟨rfl, ?_⟩
  intro h
  rw [show (batch_fetch_player_stats envSingle 10 [playerP1CachedAt 0] sampleLeague
      none none).2.2 =
    [build_multi_player_stats_url sampleLeague ["p1"], settings_url sampleLeague] from rfl] at h
  exact List.noConfusion h

/-- Claim C5 (amended): the multi-player facade is write-only with
respect to the cache: a second `batch_fetch_player_stats` within the TTL
re-issues the same upstream calls and returns the identical enriched
dict (refreshing the cached timestamp), while the per-player read path
`Player.get_stats` does serve the second request from the cache with zero
upstream calls, unchanged state, and the identical enriched result. -/
theorem c5_cache_write_only_amended :
    batch_fetch_player_stats envSingle 0 [playerP1] sampleLeague none none =
      ([(.str "p1", enrichedP1)], [playerP1CachedAt 0],
        [build_multi_player_stats_url sampleLeague ["p1"], settings_url sampleLeague]) ∧
    batch_fetch_player_stats envSingle 10 [playerP1CachedAt 0] sampleLeague none none =
      ([(.str "p1", enrichedP1)], [playerP1CachedAt 10],
        [build_multi_player_stats_url sampleLeague ["p1"], settings_url sampleLeague]) ∧
    Player.get_stats envSingle 10 (playerP1CachedAt 0) sampleLeague none none false =
      (some enrichedP1, playerP1CachedAt 0, []) :=
  ⟨rfl, rfl, rfl⟩

/-- Claim C6 (confirmed): a bare numeric league id is normalized to the
fully-qualified `461.l.{id}` form, an id already in full (dotted) form
passes through unchanged, and every upstream URL the batch facade fetches
is built from the normalized league id. -/
theorem c6_league_id_normalization :
    (∀ s : String, py_isdigit s = true → normalize_league_id s = "461.l." ++ s) ∧
    (∀ s : String, s.data.contains '.' = true → normalize_league_id s = s) ∧
    (∀ (env : Env) (now : Int) (players : List PlayerObj) (lid : String)
        (st wk : Option String) (url : String),
        url ∈ (batch_fetch_player_stats env now players lid st wk).2.2 →
        (∃ ks, url = build_multi_player_stats_url (normalize_league_id lid) ks) ∨
          url = settings_url (normalize_league_id lid) ∨
          ∃ pk, url = build_player_stats_url (normalize_league_id lid) pk) := by
  refine ⟨?_, ?_, ?_⟩
  · intro s hd
    simp [normalize_league_id, hd]
  · intro s hdot
    have hnd : py_isdigit s = false := by
      have hmem : '.' ∈ s.data := by simpa using hdot
      unfold py_isdigit
      rcases hall : s.data.all Char.isDigit with _ | _
      · simp
      · have := (List.all_eq_true.mp hall) '.' hmem
        simp at this
    simp [normalize_league_id, hnd]
  · intro env now players lid st wk url h
    exact mem_batch_log h

/-- Witness for C6: the bare id `12345` is expanded, the full key
`461.l.12345` passes through, and the batch URL actually fetched in the
single-player scenario is built from the normalized league id. -/
theorem c6_league_id_normalization_witness :
    normalize_league_id "12345" = "461.l." ++ "12345" ∧
    normalize_league_id "461.l.12345" = "461.l.12345" ∧
    ((∃ ks, build_multi_player_stats_url sampleLeague ["p1"] =
        build_multi_player_stats_url (normalize_league_id "12345") ks) ∨
      build_multi_player_stats_url sampleLeague ["p1"] =
        settings_url (normalize_league_id "12345") ∨
      ∃ pk, build_multi_player_stats_url sampleLeague ["p1"] =
        build_player_stats_url (normalize_league_id "12345") pk) :=
  ⟨c6_league_id_normalization.1 "12345" (by decide),
   c6_league_id_normalization.2.1 "461.l.12345" (by decide),
   c6_league_id_normalization.2.2 envSingle 0 [playerP1] "12345" none none
     (build_multi_player_stats_url sampleLeague ["p1"]) (by decide)⟩

/-- Claim C7 (confirmed): a cache entry fetched at time `T` is served from
the cache — no upstream call, state unchanged — at every read strictly
earlier than `T + TTL` (hence in particular at `T + TTL - 1`), and a read
at `T + TTL + 1` goes back upstream. -/
theorem c7_ttl_boundary {env : Env} {p : PlayerObj} {league : String}
    {st wk : Option String} {entry : CacheEntry}
    (hkey : p.player_key.truthy = true)
    (hfind : cacheFind p.cache (cache_key_of (normalize_league_id league) st wk) = some entry)
    (hauth : env.authenticated = true) :
    (∀ now : Int, now - entry.timestamp < CACHE_TTL →
        Player.get_stats env now p league st wk false = (some entry.stats, p, [])) ∧
    (Player.get_stats env (entry.timestamp + CACHE_TTL + 1) p league st wk false).2.2 ≠ [] :=
  ⟨get_stats_cache_hit hkey hfind, get_stats_cache_expired hkey hfind hauth⟩

/-- Witness for C7: the cached player of the single-player scenario,
fetched at `T = 0`, is served from cache at `T + TTL - 1` and refetched
at `T + TTL + 1`. -/
theorem c7_ttl_boundary_witness :
    Player.get_stats envSingle (0 + CACHE_TTL - 1) (playerP1CachedAt 0) sampleLeague
      none none false = (some enrichedP1, playerP1CachedAt 0, []) ∧
    (Player.get_stats envSingle (0 + CACHE_TTL + 1) (playerP1CachedAt 0) sampleLeague
      none none false).2.2 ≠ [] :=
  ⟨(@c7_ttl_boundary envSingle (playerP1CachedAt 0) sampleLeague none none
      ⟨enrichedP1, 0⟩ rfl rfl rfl).1 (0 + CACHE_TTL - 1) (by decide),
   (@c7_ttl_boundary envSingle (playerP1CachedAt 0) sampleLeague none none
      ⟨enrichedP1, 0⟩ rfl rfl rfl).2⟩

/-- Claim C8 (confirmed): whenever no live cache entry exists for the key
(none at all, or only a stale one), a failed fetch (raised, or an in-band
error response) returns `None` without touching the cache — the stale
entry, if any, stays as it was and the next read retries — while a
successful fetch stores the new entry under the cache key, overwriting
any stale one, before returning it. -/
theorem c8_failure_not_cached {env : Env} {p : PlayerObj} {league : String}
    {st wk : Option String}
    (hkey : p.player_key.truthy = true) :
    (∀ now : Int,
        (∀ entry, cacheFind p.cache (cache_key_of (normalize_league_id league) st wk) =
          some entry → ¬(now - entry.timestamp < CACHE_TTL)) →
        fetchFailed env (build_player_stats_url (normalize_league_id league)
          p.player_key.pyStr) = true →
        Player.get_stats env now p league st wk false =
          (none, p, (fetch_yahoo env (build_player_stats_url (normalize_league_id league)
            p.player_key.pyStr)).2)) ∧
    (∀ now : Int,
        (∀ entry, cacheFind p.cache (cache_key_of (normalize_league_id league) st wk) =
          some entry → ¬(now - entry.timestamp < CACHE_TTL)) →
        fetchFailed env (build_player_stats_url (normalize_league_id league)
          p.player_key.pyStr) = false →
        ∃ r log2, Player.get_stats env now p league st wk false =
          (some r, { p with cache := cacheInsert p.cache (cache_key_of (normalize_league_id league) st wk) ⟨r, now⟩ }, log2)) :=
  ⟨fun now hstale hfail => get_stats_fetch_failure hkey now hstale hfail,
   fun now hstale hok => get_stats_fetch_success hkey now hstale hok⟩

/-- Witness for C8: with every upstream call raising, `get_stats` on the
fresh `p1` player returns `None` and leaves it untouched; and on the
player whose cached entry from time 0 has expired by time `TTL + 1`, the
successful fetch overwrites the stale entry before returning the fresh
result. -/
theorem c8_failure_not_cached_witness :
    Player.get_stats envAllExc 0 playerP1 sampleLeague none none false =
      (none, playerP1, (fetch_yahoo envAllExc (build_player_stats_url
        (normalize_league_id sampleLeague) (playerP1.player_key).pyStr)).2) ∧
    ∃ r log2, Player.get_stats envSingle (CACHE_TTL + 1) (playerP1CachedAt 0) sampleLeague
      none none false =
      (some r, { playerP1CachedAt 0 with cache := cacheInsert (playerP1CachedAt 0).cache (cache_key_of (normalize_league_id sampleLeague) none none) ⟨r, CACHE_TTL + 1⟩ }, log2) :=
  ⟨(@c8_failure_not_cached envAllExc playerP1 sampleLeague none none rfl).1 0
      (fun entry h => Option.noConfusion h) rfl,
   (@c8_failure_not_cached envSingle (playerP1CachedAt 0) sampleLeague none none rfl).2
      (CACHE_TTL + 1)
      (fun entry h => by cases Option.some.inj h; decide) rfl⟩

/-- Claim C9, counterexample: for a known stat id whose configuration
omits `display_name` but carries `name`, the resolver maps the id to that
`name` (here `"Foo"`), not to the synthesized `"stat_" + stat_id`. -/
theorem c9_display_name_counterexample :
    (get_league_stat_categories envNameOnly sampleLeague).1 = [("5", Tree.str "Foo")] ∧
    ((assocFind (get_league_stat_categories envNameOnly sampleLeague).1 "5").map
      Tree.pyStr) = some "Foo" ∧
    ((assocFind (get_league_stat_categories envNameOnly sampleLeague).1 "5").map
      Tree.pyStr) ≠ some ("stat_" ++ "5") :=
  ⟨rfl, rfl, by decide⟩

/-- Claim C9 (amended): the resolver synthesizes `"stat_" + stat_id` only
when both `display_name` and `name` are absent for a known id (an
omitted `display_name` with a present `name` falls back to the `name`);
and a raised settings fetch yields the empty mapping rather than
propagating the error. -/
theorem c9_stat_categories_amended :
    (∀ (env : Env) (lid sid : String),
        env.authenticated = true →
        env.upstream (settings_url lid) =
          .ok (settingsRespWith (.obj [("stat_id", .str sid)])) →
        sid.isEmpty = false →
        (get_league_stat_categories env lid).1 = [(sid, Tree.str ("stat_" ++ sid))]) ∧
    (∀ (env : Env) (lid : String) (e : PyErr),
        (fetch_yahoo env (settings_url lid)).1 = .error e →
        get_league_stat_categories env lid =
          ([], (fetch_yahoo env (settings_url lid)).2)) :=
  ⟨fun _ _ _ hauth hup hsid => stat_categories_synthesized hauth hup hsid,
   fun _ _ _ h => stat_categories_fetch_failure h⟩

/-- Witness for C9: the synthesized name for the concrete id `9004` whose
settings node has neither `display_name` nor `name`, and the empty
mapping when every upstream call raises. -/
theorem c9_stat_categories_amended_witness :
    (get_league_stat_categories envIdOnly sampleLeague).1 =
      [("9004", Tree.str ("stat_" ++ "9004"))] ∧
    get_league_stat_categories envAllExc sampleLeague =
      ([], (fetch_yahoo envAllExc (settings_url sampleLeague)).2) :=
  ⟨c9_stat_categories_amended.1 envIdOnly sampleLeague "9004" rfl rfl (by decide),
   c9_stat_categories_amended.2 envAllExc sampleLeague .exc rfl⟩

/-- Claim C10 (confirmed): the empty player list produces the empty
result and no upstream request at every level — `_fetch_players_stats`
on `[]` returns `[]` with an empty log, and `batch_fetch_player_stats`
returns the empty dict with no fetch and no mutation when given no
players or only players lacking a truthy `player_key`. -/
theorem c10_empty_request_no_upstream :
    (∀ (env : Env) (lid : String) (st wk : Option String),
        _fetch_players_stats env lid [] st wk = (.ok [], [])) ∧
    (∀ (env : Env) (now : Int) (lid : String) (st wk : Option String),
        batch_fetch_player_stats env now [] lid st wk = ([], [], [])) ∧
    (∀ (env : Env) (now : Int) (players : List PlayerObj) (lid : String)
        (st wk : Option String),
        (∀ p ∈ players, p.player_key.truthy = false) →
        batch_fetch_player_stats env now players lid st wk = ([], players, [])) :=
  ⟨fun _ _ _ _ => rfl, fun _ _ _ _ _ => rfl,
   fun _ _ _ _ _ _ hall => batch_no_valid_keys hall⟩

/-- Witness for C10: a single keyless player object produces the empty
dict, no mutation and no upstream call. -/
theorem c10_empty_request_no_upstream_witness :
    batch_fetch_player_stats envAllExc 0 [playerNoKey] "12345" none none =
      ([], [playerNoKey], []) :=
  c10_empty_request_no_upstream.2.2 envAllExc 0 [playerNoKey] "12345" none none
    (by intro p hp; rw [List.mem_singleton] at hp; subst hp; rfl)

end BlitzGremlin
